import Mathlib

/-!
BIG-IP provider resources: persistence profile, traffic matching criteria, address list.

A shallow embedding of the three resource files of the provider:

* `resource_bigip_ltm_persistence_profile_universal.go`
* `resource_bigip_ltm_traffic_matching_criteria.go`
* `resource_bigip_net_address_list.go`

Conventions of the embedding.

* A Go `error` is an `Option String`: `none` is `nil`, `some msg` is an error whose
  `Error()` text is `msg`.
* A pointer result of the client (`*bigip.X`) is an `Option X`; `none` is the nil pointer.
  Reading a field through a nil pointer ends the handler with `Outcome.panicked`.
* `*schema.ResourceData` is a record per resource: the identity (`d.Id()`, empty for a resource
  that is not created yet) and one optional value per schema field (`none` is a field that was
  never set). `d.Get` gives the zero value of an unset field, so its type assertions cannot fail.
  The handlers mutate the data in place; here every handler returns the new record.
* `d.Set` of a string or an int into a field of that type is the record update. The one write of
  another shape, `d.Set("addresses", addressList.Addresses)`, goes through `setStringList`, the
  framework's check of the value against the field's type.
* The remote client `*bigip.BigIP` is a record of state-passing functions over an arbitrary
  type `σ` of remote states; nothing is assumed about what it answers.
* `log.Printf`, `log.Println` and `fmt.Println` only print and are left out.
-/

set_option linter.unusedVariables false

namespace Bigip

/-! ## Go values, errors and diagnostics -/

/-- A Go `error` through its `Error()` text; `none` is `nil`. -/
abbrev GoError := Option String

/-- The `diag.Diagnostics` of a handler: the summaries of its error diagnostics; `[]` is `nil`. -/
abbrev Diagnostics := List String

/-- The function `diag.FromErr`: nil for a nil error, else one error diagnostic with the error text. -/
def diagFromErr : GoError → Diagnostics
  | none => []
  | some msg => [msg]

/-- How a handler call ends: it returns diagnostics, or the goroutine panics. -/
inductive Outcome where
  | returned (diags : Diagnostics)
  | panicked
  deriving DecidableEq, Repr

/-- The result of running a handler: how it ended, the resource data and the remote state it left. -/
structure Run (D σ : Type) where
  outcome : Outcome
  d : D
  world : σ

/-- The field read `d.Get(key).(string)`: the zero value when the field is unset. -/
def getString (f : Option String) : String := f.getD ""

/-- The field read `d.Get(key).(int)`: the zero value when the field is unset. -/
def getInt (f : Option Int) : Int := f.getD 0

/-- The second result of `d.GetOk(key)` on a string field: set, and to a non-zero value. -/
def getOkString (f : Option String) : Bool :=
  match f with
  | none => false
  | some v => v != ""

/-- The search `strings.Contains` on the characters of the two strings. -/
def containsChars (s substr : List Char) : Bool :=
  match s with
  | [] => substr.isEmpty
  | c :: cs => substr.isPrefixOf (c :: cs) || containsChars cs substr

/-- The function `strings.Contains(s, substr)`. -/
def strings.Contains (s substr : String) : Bool := containsChars s.data substr.data

/-! ## Remote objects (fields used by the handlers) -/

/-- The client type `bigip.UniversalPersistenceProfile`, with the embedded `PersistenceProfile` flattened. -/
structure UniversalPersistenceProfile where
  AppService : String
  DefaultsFrom : String
  MatchAcrossPools : String
  MatchAcrossServices : String
  MatchAcrossVirtuals : String
  Method : String
  Mirror : String
  OverrideConnectionLimit : String
  Timeout : String
  Rule : String
  deriving DecidableEq, Repr

/-- The client type `bigip.TrafficMatchingCriteria`. -/
structure TrafficMatchingCriteria where
  Name : String
  Description : String
  Protocol : String
  RouteDomain : String
  DestinationAddressList : String
  DestinationAddressInline : String
  DestinationPortList : String
  DestinationPortInline : String
  SourceAddressList : String
  SourceAddressInline : String
  SourcePortInline : Int
  deriving DecidableEq, Repr

/-- The client type `bigip.AddressListAddress`: one named record per address. -/
structure AddressListAddress where
  Name : String
  deriving DecidableEq, Repr

/-- The client type `bigip.AddressList`; a nil `Addresses` slice is the empty list. -/
structure AddressList where
  Name : String
  Description : String
  Addresses : List AddressListAddress
  deriving DecidableEq, Repr

/-! ## Resource data -/

/-- The `schema.ResourceData` of `bigip_ltm_traffic_matching_criteria`. -/
structure TmcData where
  id : String
  name : Option String
  description : Option String
  protocol : Option String
  route_domain : Option String
  destination_address_list : Option String
  destination_address_inline : Option String
  destination_port_list : Option String
  destination_port_inline : Option String
  source_address_list : Option String
  source_address_inline : Option String
  source_port_inline : Option Int
  deriving DecidableEq, Repr

/-- The function `NewTmcFromResourceData`. The local `sail` is computed as in the source and,
as in the source, not used in the returned object. -/
def NewTmcFromResourceData (d : TmcData) : TrafficMatchingCriteria :=
  let sail := getString d.source_address_inline
  let sail := if sail.length = 0 then "0.0.0.0" else sail
  { Name := getString d.name
    Description := getString d.description
    Protocol := getString d.protocol
    RouteDomain := getString d.route_domain
    DestinationAddressList := getString d.destination_address_list
    DestinationAddressInline := getString d.destination_address_inline
    DestinationPortList := getString d.destination_port_list
    DestinationPortInline := getString d.destination_port_inline
    SourceAddressList := getString d.source_address_list
    SourceAddressInline := getString d.source_address_inline
    SourcePortInline := getInt d.source_port_inline }

/-- The `schema.ResourceData` of `bigip_ltm_persistence_profile_universal`. -/
structure PersistenceProfileData where
  id : String
  name : Option String
  app_service : Option String
  defaults_from : Option String
  match_across_pools : Option String
  match_across_services : Option String
  match_across_virtuals : Option String
  method : Option String
  mirror : Option String
  timeout : Option Int
  override_conn_limit : Option String
  rule : Option String
  deriving DecidableEq, Repr

/-- The `schema.ResourceData` of `bigip_net_address_list`; `addresses` is a `TypeList` of `TypeString`. -/
structure AddressListData where
  id : String
  name : Option String
  description : Option String
  addresses : Option (List String)
  deriving DecidableEq, Repr

/-- A Go `interface{}` value as the handlers pass it around: a string, an int, a struct of the
client library, or a slice of such values. -/
inductive GoValue where
  | string (s : String)
  | int (n : Int)
  | record (a : AddressListAddress)
  | slice (vs : List GoValue)

/-- The field read `d.Get("addresses").([]interface{})`: the elements of a `TypeList` of
`TypeString` are strings; the empty slice when the field is unset. -/
def getList (f : Option (List String)) : List GoValue := (f.getD []).map GoValue.string

/-- The second result of `d.GetOk(key)` on a list field: set, and not empty. -/
def getOkList (f : Option (List String)) : Bool :=
  match f with
  | none => false
  | some l => !l.isEmpty

/-- The framework decoding one element written to a `TypeString` field: only a string is accepted. -/
def decodeString : GoValue → Option String
  | GoValue.string s => some s
  | _ => none

/-- The framework decoding the elements written to a `TypeList` of `TypeString`, in order: it stops
at the first element that is no string. -/
def decodeStrings : List GoValue → Option (List String)
  | [] => some []
  | v :: vs =>
    match decodeString v with
    | none => none
    | some s => (decodeStrings vs).map (fun l => s :: l)

/-- The framework decoding of a value written to a `TypeList` of `TypeString`: a slice all of whose
elements decode as strings. -/
def decodeStringList : GoValue → Option (List String)
  | GoValue.slice vs => decodeStrings vs
  | _ => none

/-- The write `d.Set(key, value)` on a field declared `TypeList` of `TypeString`, with the field's
current content: `Set` returns an error when the value is not of the field's type and then leaves
the field as it was. The result is the new content and the error of `Set`. -/
def setStringList (old : Option (List String)) (value : GoValue) : Option (List String) × GoError :=
  match decodeStringList value with
  | some l => (some l, none)
  | none => (old, some "expected type string, got unconvertible type")

/-! ## strconv -/

/-- The value of a decimal digit, `none` for any other character. -/
def digitValue (c : Char) : Option Nat :=
  if 48 ≤ c.toNat ∧ c.toNat ≤ 57 then some (c.toNat - 48) else none

/-- Reads a run of decimal digits, most significant first, onto the accumulator. -/
def parseDigits : List Char → Nat → Option Nat
  | [], acc => some acc
  | c :: cs, acc =>
    match digitValue c with
    | none => none
    | some v => parseDigits cs (acc * 10 + v)

/-- The unsigned part of `strconv.Atoi`: at least one character, all of them decimal digits. -/
def parseUnsigned (cs : List Char) : Option Nat :=
  if cs.isEmpty then none else parseDigits cs 0

/-- The function `strconv.Atoi` for a 64-bit `int`: an optional sign, then decimal digits, the value
within the range of `int`; `none` is a non-nil error. -/
def strconv.Atoi (s : String) : Option Int :=
  match s.data with
  | '-' :: cs =>
    match parseUnsigned cs with
    | some n => if n ≤ 2 ^ 63 then some (-(n : Int)) else none
    | none => none
  | '+' :: cs =>
    match parseUnsigned cs with
    | some n => if n < 2 ^ 63 then some (n : Int) else none
    | none => none
  | cs =>
    match parseUnsigned cs with
    | some n => if n < 2 ^ 63 then some (n : Int) else none
    | none => none

/-- The function `strconv.Itoa`: the decimal text of an integer, with a minus sign when negative. -/
def strconv.Itoa (n : Int) : String :=
  if n < 0 then "-" ++ Nat.repr n.natAbs else Nat.repr n.toNat

/-! ## The remote client -/

/-- The client `*bigip.BigIP`, as far as the three resources use it. Every method takes the remote
state, and gives its Go results and the remote state after the call. -/
structure BigIP (σ : Type) where
  CreateUniversalPersistenceProfile : String → String → σ → GoError × σ
  GetUniversalPersistenceProfile : String → σ → (Option UniversalPersistenceProfile × GoError) × σ
  ModifyUniversalPersistenceProfile : String → UniversalPersistenceProfile → σ → GoError × σ
  DeleteUniversalPersistenceProfile : String → σ → GoError × σ
  AddTrafficMatchingCriteria : TrafficMatchingCriteria → σ → GoError × σ
  GetTrafficMatchingCriteria : String → σ → (Option TrafficMatchingCriteria × GoError) × σ
  ModifyTrafficMatchingCriteria : String → TrafficMatchingCriteria → σ → GoError × σ
  DeleteTrafficMatchingCriteria : String → σ → GoError × σ
  AddAddressList : AddressList → σ → GoError × σ
  GetAddressList : String → σ → (Option AddressList × GoError) × σ
  ModifyAddressList : String → AddressList → σ → GoError × σ
  DeleteAddressList : String → σ → GoError × σ

/-- One call of a client method, with its arguments. -/
inductive Call where
  | CreateUniversalPersistenceProfile (name parent : String)
  | GetUniversalPersistenceProfile (name : String)
  | ModifyUniversalPersistenceProfile (name : String) (pp : UniversalPersistenceProfile)
  | DeleteUniversalPersistenceProfile (name : String)
  | AddTrafficMatchingCriteria (tmc : TrafficMatchingCriteria)
  | GetTrafficMatchingCriteria (name : String)
  | ModifyTrafficMatchingCriteria (name : String) (tmc : TrafficMatchingCriteria)
  | DeleteTrafficMatchingCriteria (name : String)
  | AddAddressList (al : AddressList)
  | GetAddressList (name : String)
  | ModifyAddressList (name : String) (al : AddressList)
  | DeleteAddressList (name : String)
  deriving DecidableEq, Repr

/-- Appends a call to the journal next to the remote state. -/
def journal {σ α : Type} (c : Call) (log : List Call) (r : α × σ) : α × (σ × List Call) :=
  (r.1, (r.2, log ++ [c]))

/-- The same client, keeping a journal of the calls it receives, in order. -/
def recording {σ : Type} (client : BigIP σ) : BigIP (σ × List Call) where
  CreateUniversalPersistenceProfile name parent w :=
    journal (Call.CreateUniversalPersistenceProfile name parent) w.2 (client.CreateUniversalPersistenceProfile name parent w.1)
  GetUniversalPersistenceProfile name w :=
    journal (Call.GetUniversalPersistenceProfile name) w.2 (client.GetUniversalPersistenceProfile name w.1)
  ModifyUniversalPersistenceProfile name pp w :=
    journal (Call.ModifyUniversalPersistenceProfile name pp) w.2 (client.ModifyUniversalPersistenceProfile name pp w.1)
  DeleteUniversalPersistenceProfile name w :=
    journal (Call.DeleteUniversalPersistenceProfile name) w.2 (client.DeleteUniversalPersistenceProfile name w.1)
  AddTrafficMatchingCriteria tmc w :=
    journal (Call.AddTrafficMatchingCriteria tmc) w.2 (client.AddTrafficMatchingCriteria tmc w.1)
  GetTrafficMatchingCriteria name w :=
    journal (Call.GetTrafficMatchingCriteria name) w.2 (client.GetTrafficMatchingCriteria name w.1)
  ModifyTrafficMatchingCriteria name tmc w :=
    journal (Call.ModifyTrafficMatchingCriteria name tmc) w.2 (client.ModifyTrafficMatchingCriteria name tmc w.1)
  DeleteTrafficMatchingCriteria name w :=
    journal (Call.DeleteTrafficMatchingCriteria name) w.2 (client.DeleteTrafficMatchingCriteria name w.1)
  AddAddressList al w :=
    journal (Call.AddAddressList al) w.2 (client.AddAddressList al w.1)
  GetAddressList name w :=
    journal (Call.GetAddressList name) w.2 (client.GetAddressList name w.1)
  ModifyAddressList name al w :=
    journal (Call.ModifyAddressList name al) w.2 (client.ModifyAddressList name al w.1)
  DeleteAddressList name w :=
    journal (Call.DeleteAddressList name) w.2 (client.DeleteAddressList name w.1)

/-! ## Persistence profile (universal) -/

/-- The handler `resourceBigipLtmPersistenceProfileUniversalRead`. -/
def resourceBigipLtmPersistenceProfileUniversalRead {σ : Type} (client : BigIP σ)
    (d : PersistenceProfileData) (w : σ) : Run PersistenceProfileData σ :=
  let name := d.id
  let r := client.GetUniversalPersistenceProfile name w
  let w := r.2
  match r.1.2 with
  | some msg => ⟨Outcome.returned (diagFromErr (some msg)), d, w⟩
  | none =>
    match r.1.1 with
    | none => ⟨Outcome.returned [], { d with id := "" }, w⟩
    | some pp =>
      let d := { d with name := some name }
      let d := { d with defaults_from := some pp.DefaultsFrom }
      let d := { d with match_across_pools := some pp.MatchAcrossPools }
      let d := { d with match_across_services := some pp.MatchAcrossServices }
      let d := { d with match_across_virtuals := some pp.MatchAcrossVirtuals }
      let d := { d with mirror := some pp.Mirror }
      let d := { d with override_conn_limit := some pp.OverrideConnectionLimit }
      let d := { d with method := some pp.Method }
      let d :=
        match strconv.Atoi pp.Timeout with
        | some timeout => { d with timeout := some timeout }
        | none => d
      let d := if getOkString d.app_service then { d with app_service := some pp.AppService } else d
      let d := if getOkString d.rule then { d with rule := some pp.Rule } else d
      ⟨Outcome.returned [], d, w⟩

/-- The request object built by `resourceBigipLtmPersistenceProfileUniversalUpdate`; `Method` is
not filled in (the line is commented out in the source) and keeps its zero value. -/
def universalPersistenceProfileRequest (d : PersistenceProfileData) : UniversalPersistenceProfile :=
  { AppService := getString d.app_service
    DefaultsFrom := getString d.defaults_from
    MatchAcrossPools := getString d.match_across_pools
    MatchAcrossServices := getString d.match_across_services
    MatchAcrossVirtuals := getString d.match_across_virtuals
    Method := ""
    Mirror := getString d.mirror
    OverrideConnectionLimit := getString d.override_conn_limit
    Timeout := strconv.Itoa (getInt d.timeout)
    Rule := getString d.rule }

/-- The handler `resourceBigipLtmPersistenceProfileUniversalUpdate`. -/
def resourceBigipLtmPersistenceProfileUniversalUpdate {σ : Type} (client : BigIP σ)
    (d : PersistenceProfileData) (w : σ) : Run PersistenceProfileData σ :=
  let name := d.id
  let pp := universalPersistenceProfileRequest d
  let r := client.ModifyUniversalPersistenceProfile name pp w
  let w := r.2
  match r.1 with
  | some msg =>
    let rdel := client.DeleteUniversalPersistenceProfile name w
    let w := rdel.2
    match rdel.1 with
    | some msgdel => ⟨Outcome.returned (diagFromErr (some msgdel)), d, w⟩
    | none => ⟨Outcome.returned (diagFromErr (some msg)), d, w⟩
  | none => resourceBigipLtmPersistenceProfileUniversalRead client d w

/-- The handler `resourceBigipLtmPersistenceProfileUniversalCreate`. -/
def resourceBigipLtmPersistenceProfileUniversalCreate {σ : Type} (client : BigIP σ)
    (d : PersistenceProfileData) (w : σ) : Run PersistenceProfileData σ :=
  let name := getString d.name
  let parent := getString d.defaults_from
  let r := client.CreateUniversalPersistenceProfile name parent w
  let w := r.2
  match r.1 with
  | some msg => ⟨Outcome.returned (diagFromErr (some msg)), d, w⟩
  | none =>
    let d := { d with id := name }
    resourceBigipLtmPersistenceProfileUniversalUpdate client d w

/-- The handler `resourceBigipLtmPersistenceProfileUniversalDelete`. -/
def resourceBigipLtmPersistenceProfileUniversalDelete {σ : Type} (client : BigIP σ)
    (d : PersistenceProfileData) (w : σ) : Run PersistenceProfileData σ :=
  let name := d.id
  let r := client.DeleteUniversalPersistenceProfile name w
  let w := r.2
  match r.1 with
  | some msg => ⟨Outcome.returned (diagFromErr (some msg)), d, w⟩
  | none => ⟨Outcome.returned [], { d with id := "" }, w⟩

/-! ## Traffic matching criteria -/

/-- The handler `resourceBigipLtmTrafficMatchingCriteriaRead`. After the two error checks the
fields of `tmc` are read without a nil check. -/
def resourceBigipLtmTrafficMatchingCriteriaRead {σ : Type} (client : BigIP σ)
    (d : TmcData) (w : σ) : Run TmcData σ :=
  let name := d.id
  let d := { d with name := some name }
  let r := client.GetTrafficMatchingCriteria name w
  let w := r.2
  match r.1.2 with
  | some msg =>
    if strings.Contains msg "not found" then
      ⟨Outcome.returned [], { d with id := "" }, w⟩
    else
      ⟨Outcome.returned (diagFromErr (some msg)), d, w⟩
  | none =>
    match r.1.1 with
    | none => ⟨Outcome.panicked, d, w⟩
    | some tmc =>
      let d := { d with description := some tmc.Description }
      let d := { d with protocol := some tmc.Protocol }
      let d := { d with route_domain := some tmc.RouteDomain }
      let d := { d with destination_address_list := some tmc.DestinationAddressList }
      let d := { d with destination_address_inline := some tmc.DestinationAddressInline }
      let d := { d with destination_port_list := some tmc.DestinationPortList }
      let d := { d with destination_port_inline := some tmc.DestinationPortInline }
      let d := { d with source_address_list := some tmc.SourceAddressList }
      let d := { d with source_address_inline := some tmc.SourceAddressInline }
      let d := { d with source_port_inline := some tmc.SourcePortInline }
      ⟨Outcome.returned [], d, w⟩

/-- The handler `resourceBigipLtmTrafficMatchingCriteriaCreate`; the create error is wrapped by
`fmt.Errorf("error creating traffic matching criteria (%s): %s", name, err)`. -/
def resourceBigipLtmTrafficMatchingCriteriaCreate {σ : Type} (client : BigIP σ)
    (d : TmcData) (w : σ) : Run TmcData σ :=
  let name := getString d.name
  let tmc := NewTmcFromResourceData d
  let r := client.AddTrafficMatchingCriteria tmc w
  let w := r.2
  match r.1 with
  | some msg =>
    ⟨Outcome.returned (diagFromErr (some ("error creating traffic matching criteria (" ++ name ++ "): " ++ msg))), d, w⟩
  | none =>
    let d := { d with id := name }
    resourceBigipLtmTrafficMatchingCriteriaRead client d w

/-- The handler `resourceBigipLtmTrafficMatchingCriteriaUpdate`. -/
def resourceBigipLtmTrafficMatchingCriteriaUpdate {σ : Type} (client : BigIP σ)
    (d : TmcData) (w : σ) : Run TmcData σ :=
  let name := d.id
  let tmc := NewTmcFromResourceData d
  let r := client.ModifyTrafficMatchingCriteria name tmc w
  let w := r.2
  match r.1 with
  | some msg => ⟨Outcome.returned (diagFromErr (some msg)), d, w⟩
  | none => resourceBigipLtmTrafficMatchingCriteriaRead client d w

/-- The handler `resourceBigipLtmTrafficMatchingCriteriaDelete`. -/
def resourceBigipLtmTrafficMatchingCriteriaDelete {σ : Type} (client : BigIP σ)
    (d : TmcData) (w : σ) : Run TmcData σ :=
  let name := d.id
  let r := client.DeleteTrafficMatchingCriteria name w
  let w := r.2
  match r.1 with
  | some msg => ⟨Outcome.returned (diagFromErr (some msg)), d, w⟩
  | none => ⟨Outcome.returned [], { d with id := "" }, w⟩

/-! ## Address list -/

/-- The loop of `listToAddressesListAddresses`, from index `i` on: `ala[i].Name = v.(string)` for
each element `v`; `none` is the panic of the type assertion on a value that is not a string. -/
def assignNames : List GoValue → Nat → List AddressListAddress → Option (List AddressListAddress)
  | [], _, ala => some ala
  | GoValue.string s :: vs, i, ala => assignNames vs (i + 1) (List.modify (fun a => { a with Name := s }) i ala)
  | _ :: _, _, _ => none

/-- The function `listToAddressesListAddresses`: a slice of `len(list)` zero records, then the loop. -/
def listToAddressesListAddresses (list : List GoValue) : Option (List AddressListAddress) :=
  let ala := List.replicate list.length ({ Name := "" } : AddressListAddress)
  assignNames list 0 ala

/-- The function `addressListFromConfig`; `none` is a panic inside `listToAddressesListAddresses`. -/
def addressListFromConfig (d : AddressListData) : Option AddressList :=
  let al : AddressList := { Name := d.id, Description := getString d.description, Addresses := [] }
  if getOkList d.addresses then
    match listToAddressesListAddresses (getList d.addresses) with
    | some ala => some { al with Addresses := ala }
    | none => none
  else
    some al

/-- The handler `resourceBigipNetAddressListRead`. After the two error checks the fields of
`addressList` are read without a nil check, and `addressList.Addresses`, a slice of records, is
handed to `d.Set("addresses", ...)` as it is; the error of `Set` is discarded. -/
def resourceBigipNetAddressListRead {σ : Type} (client : BigIP σ)
    (d : AddressListData) (w : σ) : Run AddressListData σ :=
  let name := d.id
  let d := { d with name := some name }
  let r := client.GetAddressList name w
  let w := r.2
  match r.1.2 with
  | some msg =>
    if strings.Contains msg "not found" then
      ⟨Outcome.returned [], { d with id := "" }, w⟩
    else
      ⟨Outcome.returned (diagFromErr (some msg)), d, w⟩
  | none =>
    match r.1.1 with
    | none => ⟨Outcome.panicked, d, w⟩
    | some addressList =>
      let d := { d with description := some addressList.Description }
      let d := { d with addresses :=
        (setStringList d.addresses (GoValue.slice (addressList.Addresses.map GoValue.record))).1 }
      ⟨Outcome.returned [], d, w⟩

/-- The handler `resourceBigipNetAddressListCreate`; it has no `d.SetId`. -/
def resourceBigipNetAddressListCreate {σ : Type} (client : BigIP σ)
    (d : AddressListData) (w : σ) : Run AddressListData σ :=
  let name := getString d.name
  match addressListFromConfig d with
  | none => ⟨Outcome.panicked, d, w⟩
  | some addressList =>
    let r := client.AddAddressList addressList w
    let w := r.2
    match r.1 with
    | some msg =>
      ⟨Outcome.returned (diagFromErr (some ("error creating address list (" ++ name ++ "): " ++ msg))), d, w⟩
    | none => resourceBigipNetAddressListRead client d w

/-- The handler `resourceBigipNetAddressListUpdate`. -/
def resourceBigipNetAddressListUpdate {σ : Type} (client : BigIP σ)
    (d : AddressListData) (w : σ) : Run AddressListData σ :=
  let name := d.id
  match listToAddressesListAddresses (getList d.addresses) with
  | none => ⟨Outcome.panicked, d, w⟩
  | some ala =>
    let addressList : AddressList := { Name := "", Description := getString d.description, Addresses := ala }
    let r := client.ModifyAddressList name addressList w
    let w := r.2
    match r.1 with
    | some msg => ⟨Outcome.returned (diagFromErr (some msg)), d, w⟩
    | none => resourceBigipNetAddressListRead client d w

/-- The handler `resourceBigipNetAddressListDelete`. -/
def resourceBigipNetAddressListDelete {σ : Type} (client : BigIP σ)
    (d : AddressListData) (w : σ) : Run AddressListData σ :=
  let name := d.id
  let r := client.DeleteAddressList name w
  let w := r.2
  match r.1 with
  | some msg => ⟨Outcome.returned (diagFromErr (some msg)), d, w⟩
  | none => ⟨Outcome.returned [], { d with id := "" }, w⟩

/-! ## Concrete remotes and resource data -/

/-- A remote with fixed answers and no state: every get answers with the given pair, every create
and modify with `err`, every delete with `errdel`. -/
def fixedRemote (pp : Option UniversalPersistenceProfile × GoError)
    (tmc : Option TrafficMatchingCriteria × GoError) (al : Option AddressList × GoError)
    (err errdel : GoError) : BigIP Unit where
  CreateUniversalPersistenceProfile _ _ w := (err, w)
  GetUniversalPersistenceProfile _ w := (pp, w)
  ModifyUniversalPersistenceProfile _ _ w := (err, w)
  DeleteUniversalPersistenceProfile _ w := (errdel, w)
  AddTrafficMatchingCriteria _ w := (err, w)
  GetTrafficMatchingCriteria _ w := (tmc, w)
  ModifyTrafficMatchingCriteria _ _ w := (err, w)
  DeleteTrafficMatchingCriteria _ w := (errdel, w)
  AddAddressList _ w := (err, w)
  GetAddressList _ w := (al, w)
  ModifyAddressList _ _ w := (err, w)
  DeleteAddressList _ w := (errdel, w)

/-- An error text of the remote for an object that does not exist. -/
def notFoundText : String := "01020036:3: The requested object (/Common/gone) was not found."

/-- A remote on which nothing exists, every get failing with a "not found" error. -/
def notFoundRemote : BigIP Unit :=
  fixedRemote (none, some notFoundText) (none, some notFoundText) (none, some notFoundText) none none

/-- A remote on which nothing exists, every get answering a nil object and a nil error. -/
def nilRemote : BigIP Unit :=
  fixedRemote (none, none) (none, none) (none, none) none none

/-- A persistence profile as the remote returns it, with a well-formed timeout. -/
def remoteProfile : UniversalPersistenceProfile :=
  { AppService := "/Common/app1"
    DefaultsFrom := "/Common/universal"
    MatchAcrossPools := "disabled"
    MatchAcrossServices := "disabled"
    MatchAcrossVirtuals := "enabled"
    Method := "insert"
    Mirror := "disabled"
    OverrideConnectionLimit := "disabled"
    Timeout := "180"
    Rule := "/Common/irule_custom_persistence_universal" }

/-- A traffic matching criteria object as the remote returns it. -/
def remoteCriteria : TrafficMatchingCriteria :=
  { Name := "/Common/tmc1"
    Description := "web traffic"
    Protocol := "tcp"
    RouteDomain := "/Common/0"
    DestinationAddressList := ""
    DestinationAddressInline := "10.1.1.1"
    DestinationPortList := ""
    DestinationPortInline := "443"
    SourceAddressList := ""
    SourceAddressInline := "0.0.0.0"
    SourcePortInline := 0 }

/-- An address list as the remote returns it: two addresses, each wrapped in a record. -/
def remoteAddressList : AddressList :=
  { Name := "/Common/al1"
    Description := "servers"
    Addresses := [{ Name := "10.0.0.1/32" }, { Name := "10.0.0.2/32" }] }

/-- A remote that holds the three objects above and accepts every call. -/
def healthyRemote : BigIP Unit :=
  fixedRemote (some remoteProfile, none) (some remoteCriteria, none) (some remoteAddressList, none) none none

/-- A remote that holds the three objects and refuses every create, modify and delete. -/
def refusingRemote : BigIP Unit :=
  fixedRemote (some remoteProfile, none) (some remoteCriteria, none) (some remoteAddressList, none)
    (some "modify failed") (some "delete failed")

/-- A remote that refuses every create and modify and accepts every delete. -/
def rollbackRemote : BigIP Unit :=
  fixedRemote (some remoteProfile, none) (some remoteCriteria, none) (some remoteAddressList, none)
    (some "modify failed") none

/-- A remote whose persistence profile carries a timeout text that is no integer. -/
def malformedTimeoutRemote : BigIP Unit :=
  fixedRemote (some { remoteProfile with Timeout := "abc" }, none) (none, none) (none, none) none none

/-- The local state of a persistence profile that is in the state file. -/
def localProfile : PersistenceProfileData :=
  { id := "/Common/pp1"
    name := some "/Common/pp1"
    app_service := none
    defaults_from := some "/Common/universal"
    match_across_pools := some "enabled"
    match_across_services := some "enabled"
    match_across_virtuals := some "enabled"
    method := none
    mirror := some "enabled"
    timeout := some 300
    override_conn_limit := some "enabled"
    rule := some "/Common/old_rule" }

/-- The local state of a persistence profile right after an import: the identity and nothing else. -/
def importedProfile : PersistenceProfileData :=
  { id := "/Common/pp1"
    name := none
    app_service := none
    defaults_from := none
    match_across_pools := none
    match_across_services := none
    match_across_virtuals := none
    method := none
    mirror := none
    timeout := none
    override_conn_limit := none
    rule := none }

/-- The local state of a traffic matching criteria that is in the state file. -/
def localCriteria : TmcData :=
  { id := "/Common/tmc1"
    name := some "/Common/tmc1"
    description := some "old"
    protocol := some "udp"
    route_domain := none
    destination_address_list := none
    destination_address_inline := none
    destination_port_list := none
    destination_port_inline := none
    source_address_list := none
    source_address_inline := none
    source_port_inline := none }

/-- The configuration of a new traffic matching criteria with no address field set. -/
def criteriaConfigWithoutAddresses : TmcData :=
  { id := ""
    name := some "/Common/tmc1"
    description := none
    protocol := some "tcp"
    route_domain := none
    destination_address_list := none
    destination_address_inline := none
    destination_port_list := none
    destination_port_inline := none
    source_address_list := none
    source_address_inline := none
    source_port_inline := none }

/-- The local state of an address list whose stored addresses differ from the remote ones. -/
def localAddressList : AddressListData :=
  { id := "/Common/al1"
    name := some "/Common/al1"
    description := some "old"
    addresses := some ["10.0.0.9/32"] }

/-- The configuration of a new address list: no identity yet. -/
def addressListConfig : AddressListData :=
  { id := ""
    name := some "/Common/al1"
    description := some "servers"
    addresses := some ["10.0.0.1/32", "10.0.0.2/32"] }


/-- A remote that keeps persistence profiles in memory, by name: create stores a profile that has
the given parent and nothing else, modify replaces the stored object by the submitted one and
fails when there is none, get answers the stored object, or a nil object and a nil error when
there is none, delete removes it. The two other families answer as a remote that holds nothing. -/
def memoryRemote : BigIP (List (String × UniversalPersistenceProfile)) where
  CreateUniversalPersistenceProfile name parent w :=
    (none,
      (name,
        { AppService := ""
          DefaultsFrom := parent
          MatchAcrossPools := ""
          MatchAcrossServices := ""
          MatchAcrossVirtuals := ""
          Method := ""
          Mirror := ""
          OverrideConnectionLimit := ""
          Timeout := ""
          Rule := "" }) :: w.filter (fun e => e.1 != name))
  GetUniversalPersistenceProfile name w := ((w.lookup name, none), w)
  ModifyUniversalPersistenceProfile name pp w :=
    match w.lookup name with
    | some _ => (none, (name, pp) :: w.filter (fun e => e.1 != name))
    | none => (some "01020036:3: The requested profile was not found.", w)
  DeleteUniversalPersistenceProfile name w := (none, w.filter (fun e => e.1 != name))
  AddTrafficMatchingCriteria _ w := (none, w)
  GetTrafficMatchingCriteria _ w := ((none, none), w)
  ModifyTrafficMatchingCriteria _ _ w := (none, w)
  DeleteTrafficMatchingCriteria _ w := (none, w)
  AddAddressList _ w := (none, w)
  GetAddressList _ w := ((none, none), w)
  ModifyAddressList _ _ w := (none, w)
  DeleteAddressList _ w := (none, w)

/-- The configuration of the acceptance test `TestPpUniversalResource`, as a new resource, the
test partition being `Common`. -/
def testPpUniversalConfig : PersistenceProfileData :=
  { id := ""
    name := some "/Common/test-ppuniversal"
    app_service := none
    defaults_from := some "/Common/universal"
    match_across_pools := none
    match_across_services := none
    match_across_virtuals := none
    method := none
    mirror := none
    timeout := none
    override_conn_limit := none
    rule := some "/Common/irule_custom_persistence_universal" }

/-! ## Lemmas on the model of `strings.Contains` -/

/-- The search `containsChars` finds the pattern exactly when it is a contiguous part of the text. -/
theorem containsChars_iff_infix (s substr : List Char) :
    containsChars s substr = true ↔ substr <:+: s := by
  induction s with
  | nil => simp [containsChars]
  | cons c cs ih =>
    simp only [containsChars, Bool.or_eq_true, List.isPrefixOf_iff_prefix, ih]
    exact List.infix_cons_iff.symm

/-- The model of `strings.Contains(s, substr)` answers true exactly when the characters of `substr`
occur in `s` as a contiguous run. -/
theorem strings_Contains_iff (s substr : String) :
    strings.Contains s substr = true ↔ substr.data <:+: s.data :=
  containsChars_iff_infix s.data substr.data

/-! ## Lemmas on the address wrapping loop -/

/-- The loop of `listToAddressesListAddresses` run on strings from index `i` never fails, keeps the
length of the slice, writes the strings at the positions `i, i + 1, ...` and touches nothing else. -/
theorem assignNames_strings (L : List String) :
    ∀ (i : Nat) (ala : List AddressListAddress), i + L.length ≤ ala.length →
      ∃ res, assignNames (L.map GoValue.string) i ala = some res ∧ res.length = ala.length ∧
        ∀ j : Nat, res[j]? =
          if j < i then ala[j]?
          else if j < i + L.length then (L[j - i]?).map AddressListAddress.mk
          else ala[j]? := by
  induction L with
  | nil =>
    intro i ala _
    refine ⟨ala, rfl, rfl, ?_⟩
    intro j
    by_cases hji : j < i <;> simp [hji]
  | cons s L ih =>
    intro i ala h
    simp only [List.length_cons] at h
    obtain ⟨res, hres, hlen, hget⟩ :=
      ih (i + 1) (List.modify (fun a => { a with Name := s }) i ala)
        (by rw [List.length_modify]; omega)
    refine ⟨res, ?_, ?_, ?_⟩
    · simpa [assignNames] using hres
    · rw [hlen, List.length_modify]
    · intro j
      rw [hget j, List.getElem?_modify]
      by_cases hji : j < i
      · have h1 : j < i + 1 := by omega
        have h2 : i ≠ j := by omega
        simp [hji, h1, h2]
      · by_cases hij : j = i
        · subst hij
          have hlt : j < ala.length := by omega
          simp [List.getElem?_eq_getElem hlt]
        · have h1 : ¬ j < i + 1 := by omega
          have h2 : i ≠ j := by omega
          have h3 : j - i = (j - (i + 1)) + 1 := by omega
          have h4 : (j < i + 1 + L.length) ↔ (j < i + (L.length + 1)) := by omega
          simp only [hji, h1, h2, if_false, List.length_cons, h4]
          rw [h3, List.getElem?_cons_succ]
          cases ala[j]? <;> rfl

/-! ## Lemmas on the model of `strconv` -/

/-- A decimal digit character has its digit as value. -/
theorem digitValue_digitChar (k : Nat) (hk : k < 10) : digitValue (Nat.digitChar k) = some k := by
  interval_cases k <;> rfl

/-- The digits produced onto a tail are the digits produced onto nothing, followed by the tail. -/
theorem toDigitsCore_tail (fuel : Nat) :
    ∀ (n : Nat) (ds : List Char),
      Nat.toDigitsCore 10 fuel n ds = Nat.toDigitsCore 10 fuel n [] ++ ds := by
  induction fuel with
  | zero => intro n ds; simp [Nat.toDigitsCore]
  | succ fuel ih =>
    intro n ds
    simp only [Nat.toDigitsCore]
    by_cases h : n / 10 = 0
    · simp [h]
    · simp only [h, if_false]
      rw [ih (n / 10) (Nat.digitChar (n % 10) :: ds), ih (n / 10) [Nat.digitChar (n % 10)]]
      simp

/-- Reading two runs of digits one after the other. -/
theorem parseDigits_append (xs ys : List Char) :
    ∀ acc : Nat, parseDigits (xs ++ ys) acc = (parseDigits xs acc).bind (parseDigits ys) := by
  induction xs with
  | nil => intro acc; simp [parseDigits]
  | cons c cs ih =>
    intro acc
    simp only [List.cons_append, parseDigits]
    cases digitValue c with
    | none => simp
    | some v => simpa using ih (acc * 10 + v)

/-- Reading back the decimal digits of a number gives the number. -/
theorem parseDigits_toDigitsCore (fuel : Nat) :
    ∀ n : Nat, n < fuel → parseDigits (Nat.toDigitsCore 10 fuel n []) 0 = some n := by
  induction fuel with
  | zero => intro n h; omega
  | succ fuel ih =>
    intro n hn
    simp only [Nat.toDigitsCore]
    by_cases h : n / 10 = 0
    · have hlt : n < 10 := by omega
      have hmod : n % 10 = n := Nat.mod_eq_of_lt hlt
      simp [h, parseDigits, hmod, digitValue_digitChar n hlt]
    · simp only [h, if_false]
      rw [toDigitsCore_tail, parseDigits_append, ih (n / 10) (by omega)]
      have hd : digitValue (Nat.digitChar (n % 10)) = some (n % 10) :=
        digitValue_digitChar (n % 10) (Nat.mod_lt n (by decide))
      simp only [Option.some_bind, parseDigits, hd]
      congr 1
      omega

/-- The decimal digits of a number start with a digit character. -/
theorem toDigitsCore_head (fuel : Nat) :
    ∀ n : Nat, n < fuel →
      ∃ k rest, k < 10 ∧ Nat.toDigitsCore 10 fuel n [] = Nat.digitChar k :: rest := by
  induction fuel with
  | zero => intro n h; omega
  | succ fuel ih =>
    intro n hn
    simp only [Nat.toDigitsCore]
    by_cases h : n / 10 = 0
    · exact ⟨n % 10, [], Nat.mod_lt n (by decide), by simp [h]⟩
    · obtain ⟨k, rest, hk, hrest⟩ := ih (n / 10) (by omega)
      refine ⟨k, rest ++ [Nat.digitChar (n % 10)], hk, ?_⟩
      simp only [h, if_false]
      rw [toDigitsCore_tail, hrest]
      simp

/-- The unsigned part of `strconv.Atoi` reads back the decimal text of a natural number. -/
theorem parseUnsigned_toDigits (n : Nat) : parseUnsigned (Nat.toDigits 10 n) = some n := by
  obtain ⟨k, rest, _, hrest⟩ := toDigitsCore_head (n + 1) n (by omega)
  have h := parseDigits_toDigitsCore (n + 1) n (by omega)
  unfold parseUnsigned Nat.toDigits
  rw [hrest] at h ⊢
  simpa using h

/-- A decimal digit character is no sign. -/
theorem digitChar_not_sign (k : Nat) (hk : k < 10) :
    Nat.digitChar k ≠ '-' ∧ Nat.digitChar k ≠ '+' := by
  interval_cases k <;> decide

/-- On a text that does not start with a sign, `strconv.Atoi` is the unsigned reading with the
upper bound of `int`. -/
theorem Atoi_without_sign (s : String) (c : Char) (rest : List Char) (hs : s.data = c :: rest)
    (hminus : c ≠ '-') (hplus : c ≠ '+') (n : Nat) (hn : parseUnsigned (c :: rest) = some n)
    (hrange : n < 2 ^ 63) : strconv.Atoi s = some (n : Int) := by
  unfold strconv.Atoi
  rw [hs]
  split
  · rename_i heq
    simp only [List.cons.injEq] at heq
    exact absurd heq.1 hminus
  · rename_i heq
    simp only [List.cons.injEq] at heq
    exact absurd heq.1 hplus
  · rw [hn]
    exact if_pos hrange

/-- On every integer of the range of a 64-bit `int`, `strconv.Atoi` reads back the text written by
`strconv.Itoa`. -/
theorem strconv_Atoi_Itoa (t : Int) (hlo : -(2 ^ 63 : Int) ≤ t) (hhi : t < 2 ^ 63) :
    strconv.Atoi (strconv.Itoa t) = some t := by
  unfold strconv.Itoa
  by_cases hneg : t < 0
  · have hdata : ("-" ++ Nat.repr t.natAbs).data = '-' :: Nat.toDigits 10 t.natAbs := rfl
    have h1 : t.natAbs ≤ 2 ^ 63 := by omega
    have h2 : -(t.natAbs : Int) = t := by omega
    simp only [hneg, if_true, strconv.Atoi, hdata, parseUnsigned_toDigits]
    rw [if_pos h1, h2]
  · obtain ⟨k, rest, hk, hrest⟩ := toDigitsCore_head (t.toNat + 1) t.toNat (by omega)
    have hdata : (Nat.repr t.toNat).data = Nat.digitChar k :: rest := by
      rw [← hrest]; rfl
    have hparse : parseUnsigned (Nat.digitChar k :: rest) = some t.toNat := by
      rw [← hrest]; exact parseUnsigned_toDigits t.toNat
    have h1 : t.toNat < 2 ^ 63 := by omega
    have h2 : (t.toNat : Int) = t := by omega
    simp only [hneg, if_false]
    rw [Atoi_without_sign (Nat.repr t.toNat) (Nat.digitChar k) rest hdata
      (digitChar_not_sign k hk).1 (digitChar_not_sign k hk).2 t.toNat hparse h1, h2]

/-! ## The wrapping of address strings as a whole -/

/-- On strings, `listToAddressesListAddresses` is the list of the records wrapping each string. -/
theorem listToAddressesListAddresses_strings (L : List String) :
    listToAddressesListAddresses (L.map GoValue.string) = some (L.map AddressListAddress.mk) := by
  obtain ⟨res, hres, hlen, hget⟩ :=
    assignNames_strings L 0 (List.replicate L.length ({ Name := "" } : AddressListAddress))
      (by simp)
  have hmap : res = L.map AddressListAddress.mk := by
    apply List.ext_getElem?
    intro i
    rw [hget i]
    by_cases hi : i < L.length
    · simp [hi]
    · have h1 : L.length ≤ i := by omega
      simp [hi, List.getElem?_eq_none h1]
      exact h1
  rw [← hmap]
  simpa [listToAddressesListAddresses] using hres

/-! ## The claims -/

/-- The request built by `NewTmcFromResourceData` always carries the configured
`source_address_inline` as it is: the text itself when set, the empty text when unset. -/
theorem NewTmcFromResourceData_SourceAddressInline (d : TmcData) :
    (NewTmcFromResourceData d).SourceAddressInline = getString d.source_address_inline :=
  rfl

/-- C1, on the code: for a traffic matching criteria configuration with no address field set, the
request built by `NewTmcFromResourceData` has `SourceAddressInline` empty, not `"0.0.0.0"`. -/
theorem NewTmcFromResourceData_without_addresses :
    getString criteriaConfigWithoutAddresses.source_address_inline = "" ∧
    (NewTmcFromResourceData criteriaConfigWithoutAddresses).SourceAddressInline = "" ∧
    (NewTmcFromResourceData criteriaConfigWithoutAddresses).SourceAddressInline ≠ "0.0.0.0" := by
  decide

/-- C2 as stated fails for the persistence profile: its Read answers a get error containing
"not found" with that error as a diagnostic and keeps the identity. -/
theorem persistenceProfileRead_not_found_error_returned :
    strings.Contains notFoundText "not found" = true ∧
    (resourceBigipLtmPersistenceProfileUniversalRead notFoundRemote localProfile ()).outcome
      = Outcome.returned [notFoundText] ∧
    (resourceBigipLtmPersistenceProfileUniversalRead notFoundRemote localProfile ()).d.id
      = "/Common/pp1" ∧
    ¬ ((resourceBigipLtmPersistenceProfileUniversalRead notFoundRemote localProfile ()).outcome
        = Outcome.returned [] ∧
       (resourceBigipLtmPersistenceProfileUniversalRead notFoundRemote localProfile ()).d.id = "") := by
  decide

/-- C2, amended: when the remote get of a traffic matching criteria, or of an address list, fails
with an error whose text contains "not found", its Read clears the identity and returns no error
(the `name` field having been set to the old identity). Read of a persistence profile does no text
matching: it returns every get error, whatever its text, as a diagnostic and leaves the local state
as it was; it clears the identity when the get answers a nil object with a nil error, and on every
other answer of the get the identity stays. Each Read is stated on its own get alone. -/
theorem read_on_not_found_error {σ : Type} (client : BigIP σ) (w : σ)
    (dp : PersistenceProfileData) (dt : TmcData) (da : AddressListData) :
    (∀ msg : String, (client.GetTrafficMatchingCriteria dt.id w).1.2 = some msg →
      strings.Contains msg "not found" = true →
      (resourceBigipLtmTrafficMatchingCriteriaRead client dt w).outcome = Outcome.returned [] ∧
      (resourceBigipLtmTrafficMatchingCriteriaRead client dt w).d
        = { dt with name := some dt.id, id := "" }) ∧
    (∀ msg : String, (client.GetAddressList da.id w).1.2 = some msg →
      strings.Contains msg "not found" = true →
      (resourceBigipNetAddressListRead client da w).outcome = Outcome.returned [] ∧
      (resourceBigipNetAddressListRead client da w).d
        = { da with name := some da.id, id := "" }) ∧
    (∀ msg : String, (client.GetUniversalPersistenceProfile dp.id w).1.2 = some msg →
      (resourceBigipLtmPersistenceProfileUniversalRead client dp w).outcome
        = Outcome.returned [msg] ∧
      (resourceBigipLtmPersistenceProfileUniversalRead client dp w).d = dp) ∧
    ((client.GetUniversalPersistenceProfile dp.id w).1 = (none, none) →
      (resourceBigipLtmPersistenceProfileUniversalRead client dp w).outcome = Outcome.returned [] ∧
      (resourceBigipLtmPersistenceProfileUniversalRead client dp w).d = { dp with id := "" }) ∧
    ((client.GetUniversalPersistenceProfile dp.id w).1 ≠ (none, none) →
      (resourceBigipLtmPersistenceProfileUniversalRead client dp w).d.id = dp.id) := by
  refine ⟨?_, ?_, ?_, ?_, ?_⟩
  · intro msg h hc
    simp [resourceBigipLtmTrafficMatchingCriteriaRead, h, hc]
  · intro msg h hc
    simp [resourceBigipNetAddressListRead, h, hc]
  · intro msg h
    simp [resourceBigipLtmPersistenceProfileUniversalRead, h, diagFromErr]
  · intro h
    simp [resourceBigipLtmPersistenceProfileUniversalRead, h]
  · intro h
    cases herr : (client.GetUniversalPersistenceProfile dp.id w).1.2 with
    | some msg => simp [resourceBigipLtmPersistenceProfileUniversalRead, herr]
    | none =>
      cases hobj : (client.GetUniversalPersistenceProfile dp.id w).1.1 with
      | none => exact absurd (Prod.ext hobj herr) h
      | some pp =>
        simp only [resourceBigipLtmPersistenceProfileUniversalRead, herr, hobj]
        cases hto : strconv.Atoi pp.Timeout <;>
          by_cases ha : getOkString dp.app_service = true <;>
          by_cases hr : getOkString dp.rule = true <;>
          simp [ha, hr]

/-- The amended C2 at concrete remotes: a remote on which only the traffic matching criteria is
gone, a remote on which everything is gone with a "not found" error, a remote whose persistence
profile get fails with another error, and a remote answering a nil object with a nil error. -/
theorem read_on_not_found_error_witness :
    strings.Contains notFoundText "not found" = true ∧
    strings.Contains "connection refused" "not found" = false ∧
    ((resourceBigipLtmTrafficMatchingCriteriaRead
        (fixedRemote (some remoteProfile, none) (none, some notFoundText)
          (some remoteAddressList, none) none none) localCriteria ()).outcome
        = Outcome.returned [] ∧
      (resourceBigipLtmTrafficMatchingCriteriaRead
        (fixedRemote (some remoteProfile, none) (none, some notFoundText)
          (some remoteAddressList, none) none none) localCriteria ()).d
        = { localCriteria with name := some localCriteria.id, id := "" }) ∧
    ((resourceBigipNetAddressListRead notFoundRemote localAddressList ()).outcome
        = Outcome.returned [] ∧
      (resourceBigipNetAddressListRead notFoundRemote localAddressList ()).d
        = { localAddressList with name := some localAddressList.id, id := "" }) ∧
    ((resourceBigipLtmPersistenceProfileUniversalRead notFoundRemote localProfile ()).outcome
        = Outcome.returned [notFoundText] ∧
      (resourceBigipLtmPersistenceProfileUniversalRead notFoundRemote localProfile ()).d
        = localProfile) ∧
    ((resourceBigipLtmPersistenceProfileUniversalRead
        (fixedRemote (none, some "connection refused") (none, none) (none, none) none none)
        localProfile ()).outcome = Outcome.returned ["connection refused"] ∧
      (resourceBigipLtmPersistenceProfileUniversalRead
        (fixedRemote (none, some "connection refused") (none, none) (none, none) none none)
        localProfile ()).d = localProfile) ∧
    ((resourceBigipLtmPersistenceProfileUniversalRead nilRemote localProfile ()).outcome
        = Outcome.returned [] ∧
      (resourceBigipLtmPersistenceProfileUniversalRead nilRemote localProfile ()).d
        = { localProfile with id := "" }) ∧
    (resourceBigipLtmPersistenceProfileUniversalRead healthyRemote localProfile ()).d.id
      = "/Common/pp1" :=
  ⟨by decide, by decide,
   (read_on_not_found_error
      (fixedRemote (some remoteProfile, none) (none, some notFoundText)
        (some remoteAddressList, none) none none) () localProfile localCriteria
      localAddressList).1 notFoundText rfl (by decide),
   (read_on_not_found_error notFoundRemote () localProfile localCriteria
      localAddressList).2.1 notFoundText rfl (by decide),
   (read_on_not_found_error notFoundRemote () localProfile localCriteria
      localAddressList).2.2.1 notFoundText rfl,
   (read_on_not_found_error
      (fixedRemote (none, some "connection refused") (none, none) (none, none) none none) ()
      localProfile localCriteria localAddressList).2.2.1 "connection refused" rfl,
   (read_on_not_found_error nilRemote () localProfile localCriteria
      localAddressList).2.2.2.1 rfl,
   (read_on_not_found_error healthyRemote () localProfile localCriteria
      localAddressList).2.2.2.2 (by decide)⟩

/-- Whenever the remote get answers a nil object with a nil error, Read of a traffic matching
criteria and Read of an address list go on to read a field of the nil object and so end in a panic,
with the identity still in place. -/
theorem read_nil_object_panics {σ : Type} (client : BigIP σ) (w : σ) (dt : TmcData)
    (da : AddressListData)
    (ht : (client.GetTrafficMatchingCriteria dt.id w).1 = (none, none))
    (ha : (client.GetAddressList da.id w).1 = (none, none)) :
    ((resourceBigipLtmTrafficMatchingCriteriaRead client dt w).outcome = Outcome.panicked ∧
      (resourceBigipLtmTrafficMatchingCriteriaRead client dt w).d.id = dt.id) ∧
    ((resourceBigipNetAddressListRead client da w).outcome = Outcome.panicked ∧
      (resourceBigipNetAddressListRead client da w).d.id = da.id) := by
  simp [resourceBigipLtmTrafficMatchingCriteriaRead, resourceBigipNetAddressListRead, ht, ha]

/-- Whenever the remote get answers a nil object with a nil error, Read of a persistence profile
clears the identity and returns no error. -/
theorem persistenceProfileRead_nil_object {σ : Type} (client : BigIP σ) (w : σ)
    (dp : PersistenceProfileData)
    (hp : (client.GetUniversalPersistenceProfile dp.id w).1 = (none, none)) :
    (resourceBigipLtmPersistenceProfileUniversalRead client dp w).outcome = Outcome.returned [] ∧
    (resourceBigipLtmPersistenceProfileUniversalRead client dp w).d = { dp with id := "" } := by
  simp [resourceBigipLtmPersistenceProfileUniversalRead, hp]

/-- C3, on the code: on a remote whose gets answer a nil object with a nil error, Read of the
traffic matching criteria `/Common/tmc1` and Read of the address list `/Common/al1` panic and keep
their identity, where Read of the persistence profile `/Common/pp1` clears it and returns no
error. -/
theorem read_nil_object_at_nilRemote :
    (resourceBigipLtmTrafficMatchingCriteriaRead nilRemote localCriteria ()).outcome
      = Outcome.panicked ∧
    (resourceBigipLtmTrafficMatchingCriteriaRead nilRemote localCriteria ()).d.id = "/Common/tmc1" ∧
    (resourceBigipNetAddressListRead nilRemote localAddressList ()).outcome = Outcome.panicked ∧
    (resourceBigipNetAddressListRead nilRemote localAddressList ()).d.id = "/Common/al1" ∧
    (resourceBigipLtmPersistenceProfileUniversalRead nilRemote localProfile ()).outcome
      = Outcome.returned [] ∧
    (resourceBigipLtmPersistenceProfileUniversalRead nilRemote localProfile ()).d.id = "" := by
  decide

/-- After a successful remote create, Create of a persistence profile is its Update, and Create of a
traffic matching criteria is its Read, run on the data whose identity is the configured `name`. -/
theorem create_sets_identity_before_follow_up {σ : Type} (client : BigIP σ) (w : σ)
    (dp : PersistenceProfileData) (dt : TmcData)
    (hp : (client.CreateUniversalPersistenceProfile (getString dp.name)
      (getString dp.defaults_from) w).1 = none)
    (ht : (client.AddTrafficMatchingCriteria (NewTmcFromResourceData dt) w).1 = none) :
    resourceBigipLtmPersistenceProfileUniversalCreate client dp w
      = resourceBigipLtmPersistenceProfileUniversalUpdate client { dp with id := getString dp.name }
          (client.CreateUniversalPersistenceProfile (getString dp.name)
            (getString dp.defaults_from) w).2 ∧
    resourceBigipLtmTrafficMatchingCriteriaCreate client dt w
      = resourceBigipLtmTrafficMatchingCriteriaRead client { dt with id := getString dt.name }
          (client.AddTrafficMatchingCriteria (NewTmcFromResourceData dt) w).2 := by
  simp [resourceBigipLtmPersistenceProfileUniversalCreate,
    resourceBigipLtmTrafficMatchingCriteriaCreate, hp, ht]

/-- After a successful remote create, Create of an address list is its Read run on the data as it
was, the identity not set; and the request it sent is named by that old identity. -/
theorem addressListCreate_keeps_identity {σ : Type} (client : BigIP σ) (w : σ)
    (da : AddressListData) (al : AddressList)
    (hal : addressListFromConfig da = some al)
    (ha : (client.AddAddressList al w).1 = none) :
    al.Name = da.id ∧
    resourceBigipNetAddressListCreate client da w
      = resourceBigipNetAddressListRead client da (client.AddAddressList al w).2 := by
  constructor
  · unfold addressListFromConfig at hal
    split at hal
    · split at hal
      · cases hal; rfl
      · cases hal
    · cases hal; rfl
  · simp [resourceBigipNetAddressListCreate, hal, ha]

/-- C4, on the code: Create of a new address list configured with the name `/Common/al1`, on a
remote that accepts every call, sends a create request named by the empty identity, follows it
with a get of the empty name, and ends with the identity still empty. -/
theorem addressListCreate_at_new_resource :
    addressListConfig.id = "" ∧ addressListConfig.name = some "/Common/al1" ∧
    (resourceBigipNetAddressListCreate (recording healthyRemote) addressListConfig ((), [])).world.2
      = [Call.AddAddressList
           { Name := ""
             Description := "servers"
             Addresses := [{ Name := "10.0.0.1/32" }, { Name := "10.0.0.2/32" }] },
         Call.GetAddressList ""] ∧
    (resourceBigipNetAddressListCreate (recording healthyRemote) addressListConfig ((), [])).outcome
      = Outcome.returned [] ∧
    (resourceBigipNetAddressListCreate (recording healthyRemote) addressListConfig ((), [])).d.id
      = "" := by
  decide

/-- A slice with at least one address record is no value for a list of strings: the write of
`d.Set("addresses", ...)` is refused and the field keeps its content. -/
theorem setStringList_records (old : Option (List String)) (a : AddressListAddress)
    (rest : List AddressListAddress) :
    (setStringList old (GoValue.slice ((a :: rest).map GoValue.record))).1 = old := by
  simp [setStringList, decodeStringList, decodeStrings, decodeString]

/-- C5, on the code: Read of the address list `/Common/al1`, whose local `addresses` is
`["10.0.0.9/32"]`, on a remote answering the wrapped form of `["10.0.0.1/32", "10.0.0.2/32"]`,
returns no error and leaves `addresses` at `["10.0.0.9/32"]`. -/
theorem addressListRead_keeps_addresses :
    remoteAddressList.Addresses = ["10.0.0.1/32", "10.0.0.2/32"].map AddressListAddress.mk ∧
    (resourceBigipNetAddressListRead healthyRemote localAddressList ()).outcome
      = Outcome.returned [] ∧
    (resourceBigipNetAddressListRead healthyRemote localAddressList ()).d.addresses
      = some ["10.0.0.9/32"] ∧
    (resourceBigipNetAddressListRead healthyRemote localAddressList ()).d.addresses
      ≠ some ["10.0.0.1/32", "10.0.0.2/32"] := by
  decide

/-- C6: for every list of address strings, `listToAddressesListAddresses` returns (it does not
panic) a list of records of the same length whose i-th record has the i-th string as its `Name`,
for every position i; and the empty list gives the empty list. -/
theorem listToAddressesListAddresses_names (L : List String) :
    (∃ ala, listToAddressesListAddresses (L.map GoValue.string) = some ala ∧
      ala.length = L.length ∧
      ∀ i : Nat, (ala[i]?).map AddressListAddress.Name = L[i]?) ∧
    listToAddressesListAddresses [] = some [] := by
  refine ⟨?_, rfl⟩
  obtain ⟨res, hres, hlen, hget⟩ :=
    assignNames_strings L 0 (List.replicate L.length ({ Name := "" } : AddressListAddress))
      (by simp)
  refine ⟨res, ?_, ?_, ?_⟩
  · simpa [listToAddressesListAddresses] using hres
  · simpa using hlen
  · intro i
    rw [hget i]
    by_cases hi : i < L.length
    · simp [hi, List.getElem?_eq_getElem hi]
    · have h1 : L.length ≤ i := by omega
      simp [hi, List.getElem?_eq_none h1]
      exact h1

/-- C7 as stated fails on a profile that was just imported: with the timeout text `"abc"` Read
returns no error and keeps the local `timeout`, but of the other fields `app_service` and `rule`
are not refreshed; they stay unset though the response carries both. -/
theorem persistenceProfileRead_malformed_timeout_after_import :
    strconv.Atoi "abc" = none ∧
    (resourceBigipLtmPersistenceProfileUniversalRead malformedTimeoutRemote importedProfile
      ()).outcome = Outcome.returned [] ∧
    (resourceBigipLtmPersistenceProfileUniversalRead malformedTimeoutRemote importedProfile
      ()).d.timeout = importedProfile.timeout ∧
    (resourceBigipLtmPersistenceProfileUniversalRead malformedTimeoutRemote importedProfile
      ()).d.mirror = some "disabled" ∧
    (resourceBigipLtmPersistenceProfileUniversalRead malformedTimeoutRemote importedProfile
      ()).d.rule = none ∧
    (resourceBigipLtmPersistenceProfileUniversalRead malformedTimeoutRemote importedProfile
      ()).d.app_service = none ∧
    (resourceBigipLtmPersistenceProfileUniversalRead malformedTimeoutRemote importedProfile
      ()).d.rule ≠ some "/Common/irule_custom_persistence_universal" ∧
    (resourceBigipLtmPersistenceProfileUniversalRead malformedTimeoutRemote importedProfile
      ()).d.app_service ≠ some "/Common/app1" := by
  decide

/-- C7, amended: when the remote get answers a persistence profile whose `Timeout` text does not
parse as an integer, Read returns no error and leaves the local `timeout` as it was, whatever the
prior local state, and still sets `name` to the identity and `defaults_from`, the three
`match_across` fields, `method`, `mirror` and `override_conn_limit` to the values of the response;
`app_service` and `rule` are set to the values of the response when they are locally set and not
empty, and stay as they were otherwise. -/
theorem persistenceProfileRead_malformed_timeout {σ : Type} (client : BigIP σ) (w : σ)
    (d : PersistenceProfileData) (pp : UniversalPersistenceProfile)
    (hget : (client.GetUniversalPersistenceProfile d.id w).1 = (some pp, none))
    (hbad : strconv.Atoi pp.Timeout = none) :
    (resourceBigipLtmPersistenceProfileUniversalRead client d w).outcome = Outcome.returned [] ∧
    (resourceBigipLtmPersistenceProfileUniversalRead client d w).d.timeout = d.timeout ∧
    (resourceBigipLtmPersistenceProfileUniversalRead client d w).d =
      { id := d.id
        name := some d.id
        app_service := if getOkString d.app_service then some pp.AppService else d.app_service
        defaults_from := some pp.DefaultsFrom
        match_across_pools := some pp.MatchAcrossPools
        match_across_services := some pp.MatchAcrossServices
        match_across_virtuals := some pp.MatchAcrossVirtuals
        method := some pp.Method
        mirror := some pp.Mirror
        timeout := d.timeout
        override_conn_limit := some pp.OverrideConnectionLimit
        rule := if getOkString d.rule then some pp.Rule else d.rule } := by
  simp only [resourceBigipLtmPersistenceProfileUniversalRead, hget, hbad]
  by_cases ha : getOkString d.app_service = true <;> by_cases hr : getOkString d.rule = true <;>
    simp [ha, hr]

/-- The amended C7 at the timeout text `"abc"`: the local timeout 300 stays, the rule that is set
locally is refreshed, the application service that is unset stays unset. -/
theorem persistenceProfileRead_malformed_timeout_witness :
    (strconv.Atoi "abc" = none ∧ strconv.Atoi "" = none) ∧
    (resourceBigipLtmPersistenceProfileUniversalRead malformedTimeoutRemote localProfile ()).outcome
      = Outcome.returned [] ∧
    (resourceBigipLtmPersistenceProfileUniversalRead malformedTimeoutRemote localProfile ()).d.timeout
      = some 300 ∧
    (resourceBigipLtmPersistenceProfileUniversalRead malformedTimeoutRemote localProfile ()).d =
      { id := "/Common/pp1"
        name := some "/Common/pp1"
        app_service := none
        defaults_from := some "/Common/universal"
        match_across_pools := some "disabled"
        match_across_services := some "disabled"
        match_across_virtuals := some "enabled"
        method := some "insert"
        mirror := some "disabled"
        timeout := some 300
        override_conn_limit := some "disabled"
        rule := some "/Common/irule_custom_persistence_universal" } :=
  ⟨by decide,
   persistenceProfileRead_malformed_timeout malformedTimeoutRemote () localProfile
     { remoteProfile with Timeout := "abc" } rfl (by decide)⟩

/-- C8 as stated fails when the rollback delete fails too: Update then returns the error of the
delete, not the error of the modify. -/
theorem persistenceProfileUpdate_rollback_failure :
    (refusingRemote.ModifyUniversalPersistenceProfile localProfile.id
        (universalPersistenceProfileRequest localProfile) ()).1 = some "modify failed" ∧
    (refusingRemote.DeleteUniversalPersistenceProfile localProfile.id ()).1 = some "delete failed" ∧
    (resourceBigipLtmPersistenceProfileUniversalUpdate refusingRemote localProfile ()).outcome
      = Outcome.returned ["delete failed"] ∧
    (resourceBigipLtmPersistenceProfileUniversalUpdate refusingRemote localProfile ()).outcome
      ≠ Outcome.returned ["modify failed"] := by
  decide

/-- C8, amended: when the remote modify of a persistence profile Update fails with error `e`, the
handler makes exactly two remote calls, the modify and then one delete of the same name; it returns
`e` when that delete succeeds and the error of the delete when it fails; the local state is as it
was. -/
theorem persistenceProfileUpdate_modify_failure {σ : Type} (client : BigIP σ) (w : σ)
    (log : List Call) (d : PersistenceProfileData) (e : String)
    (hmod : (client.ModifyUniversalPersistenceProfile d.id
      (universalPersistenceProfileRequest d) w).1 = some e) :
    (resourceBigipLtmPersistenceProfileUniversalUpdate (recording client) d (w, log)).outcome
      = Outcome.returned
          [(client.DeleteUniversalPersistenceProfile d.id
            (client.ModifyUniversalPersistenceProfile d.id
              (universalPersistenceProfileRequest d) w).2).1.getD e] ∧
    (resourceBigipLtmPersistenceProfileUniversalUpdate (recording client) d (w, log)).world.2
      = log ++ [Call.ModifyUniversalPersistenceProfile d.id (universalPersistenceProfileRequest d),
          Call.DeleteUniversalPersistenceProfile d.id] ∧
    (resourceBigipLtmPersistenceProfileUniversalUpdate (recording client) d (w, log)).d = d := by
  simp only [resourceBigipLtmPersistenceProfileUniversalUpdate, recording, journal, hmod]
  cases hdel : (client.DeleteUniversalPersistenceProfile d.id
      (client.ModifyUniversalPersistenceProfile d.id
        (universalPersistenceProfileRequest d) w).2).1 <;>
    simp [diagFromErr]

/-- The amended C8 at a remote whose modify fails and whose delete succeeds, and at one whose
delete fails as well. -/
theorem persistenceProfileUpdate_modify_failure_witness :
    ((rollbackRemote.ModifyUniversalPersistenceProfile localProfile.id
        (universalPersistenceProfileRequest localProfile) ()).1 = some "modify failed" ∧
      (resourceBigipLtmPersistenceProfileUniversalUpdate (recording rollbackRemote) localProfile
        ((), [])).outcome = Outcome.returned ["modify failed"] ∧
      (resourceBigipLtmPersistenceProfileUniversalUpdate (recording rollbackRemote) localProfile
        ((), [])).world.2
        = [Call.ModifyUniversalPersistenceProfile "/Common/pp1"
             (universalPersistenceProfileRequest localProfile),
           Call.DeleteUniversalPersistenceProfile "/Common/pp1"] ∧
      (resourceBigipLtmPersistenceProfileUniversalUpdate (recording rollbackRemote) localProfile
        ((), [])).d = localProfile) ∧
    ((resourceBigipLtmPersistenceProfileUniversalUpdate (recording refusingRemote) localProfile
        ((), [])).outcome = Outcome.returned ["delete failed"] ∧
      (resourceBigipLtmPersistenceProfileUniversalUpdate (recording refusingRemote) localProfile
        ((), [])).world.2
        = [Call.ModifyUniversalPersistenceProfile "/Common/pp1"
             (universalPersistenceProfileRequest localProfile),
           Call.DeleteUniversalPersistenceProfile "/Common/pp1"] ∧
      (resourceBigipLtmPersistenceProfileUniversalUpdate (recording refusingRemote) localProfile
        ((), [])).d = localProfile) :=
  ⟨⟨rfl, persistenceProfileUpdate_modify_failure rollbackRemote () [] localProfile
      "modify failed" rfl⟩,
   persistenceProfileUpdate_modify_failure refusingRemote () [] localProfile "modify failed" rfl⟩

/-- C9: for each of the three resources, Delete calls the remote delete with the identity; when
that call succeeds Delete returns no error and the identity is cleared, the fields as they were;
when it fails with an error Delete returns that error and the local state is as it was. -/
theorem delete_clears_identity_or_returns_error {σ : Type} (client : BigIP σ) (w : σ)
    (dp : PersistenceProfileData) (dt : TmcData) (da : AddressListData) :
    ((client.DeleteUniversalPersistenceProfile dp.id w).1 = none →
      (resourceBigipLtmPersistenceProfileUniversalDelete client dp w).outcome = Outcome.returned [] ∧
      (resourceBigipLtmPersistenceProfileUniversalDelete client dp w).d = { dp with id := "" }) ∧
    (∀ msg, (client.DeleteUniversalPersistenceProfile dp.id w).1 = some msg →
      (resourceBigipLtmPersistenceProfileUniversalDelete client dp w).outcome
        = Outcome.returned [msg] ∧
      (resourceBigipLtmPersistenceProfileUniversalDelete client dp w).d = dp) ∧
    ((client.DeleteTrafficMatchingCriteria dt.id w).1 = none →
      (resourceBigipLtmTrafficMatchingCriteriaDelete client dt w).outcome = Outcome.returned [] ∧
      (resourceBigipLtmTrafficMatchingCriteriaDelete client dt w).d = { dt with id := "" }) ∧
    (∀ msg, (client.DeleteTrafficMatchingCriteria dt.id w).1 = some msg →
      (resourceBigipLtmTrafficMatchingCriteriaDelete client dt w).outcome
        = Outcome.returned [msg] ∧
      (resourceBigipLtmTrafficMatchingCriteriaDelete client dt w).d = dt) ∧
    ((client.DeleteAddressList da.id w).1 = none →
      (resourceBigipNetAddressListDelete client da w).outcome = Outcome.returned [] ∧
      (resourceBigipNetAddressListDelete client da w).d = { da with id := "" }) ∧
    (∀ msg, (client.DeleteAddressList da.id w).1 = some msg →
      (resourceBigipNetAddressListDelete client da w).outcome = Outcome.returned [msg] ∧
      (resourceBigipNetAddressListDelete client da w).d = da) := by
  refine ⟨?_, ?_, ?_, ?_, ?_, ?_⟩
  · intro h
    simp [resourceBigipLtmPersistenceProfileUniversalDelete, h]
  · intro msg h
    simp [resourceBigipLtmPersistenceProfileUniversalDelete, h, diagFromErr]
  · intro h
    simp [resourceBigipLtmTrafficMatchingCriteriaDelete, h]
  · intro msg h
    simp [resourceBigipLtmTrafficMatchingCriteriaDelete, h, diagFromErr]
  · intro h
    simp [resourceBigipNetAddressListDelete, h]
  · intro msg h
    simp [resourceBigipNetAddressListDelete, h, diagFromErr]

/-- C9 at a remote that accepts every delete and at one that refuses every delete, and with a
journal: the one remote call of each Delete is the delete of the identity. -/
theorem delete_clears_identity_or_returns_error_witness :
    ((resourceBigipLtmPersistenceProfileUniversalDelete healthyRemote localProfile ()).outcome
        = Outcome.returned [] ∧
      (resourceBigipLtmPersistenceProfileUniversalDelete healthyRemote localProfile ()).d
        = { localProfile with id := "" }) ∧
    ((resourceBigipLtmTrafficMatchingCriteriaDelete healthyRemote localCriteria ()).outcome
        = Outcome.returned [] ∧
      (resourceBigipLtmTrafficMatchingCriteriaDelete healthyRemote localCriteria ()).d
        = { localCriteria with id := "" }) ∧
    ((resourceBigipNetAddressListDelete healthyRemote localAddressList ()).outcome
        = Outcome.returned [] ∧
      (resourceBigipNetAddressListDelete healthyRemote localAddressList ()).d
        = { localAddressList with id := "" }) ∧
    ((resourceBigipLtmPersistenceProfileUniversalDelete refusingRemote localProfile ()).outcome
        = Outcome.returned ["delete failed"] ∧
      (resourceBigipLtmPersistenceProfileUniversalDelete refusingRemote localProfile ()).d
        = localProfile) ∧
    ((resourceBigipLtmTrafficMatchingCriteriaDelete refusingRemote localCriteria ()).outcome
        = Outcome.returned ["delete failed"] ∧
      (resourceBigipLtmTrafficMatchingCriteriaDelete refusingRemote localCriteria ()).d
        = localCriteria) ∧
    ((resourceBigipNetAddressListDelete refusingRemote localAddressList ()).outcome
        = Outcome.returned ["delete failed"] ∧
      (resourceBigipNetAddressListDelete refusingRemote localAddressList ()).d
        = localAddressList) ∧
    (resourceBigipLtmPersistenceProfileUniversalDelete (recording healthyRemote) localProfile
        ((), [])).world.2 = [Call.DeleteUniversalPersistenceProfile "/Common/pp1"] ∧
    (resourceBigipLtmTrafficMatchingCriteriaDelete (recording healthyRemote) localCriteria
        ((), [])).world.2 = [Call.DeleteTrafficMatchingCriteria "/Common/tmc1"] ∧
    (resourceBigipNetAddressListDelete (recording healthyRemote) localAddressList
        ((), [])).world.2 = [Call.DeleteAddressList "/Common/al1"] :=
  ⟨(delete_clears_identity_or_returns_error healthyRemote () localProfile localCriteria
      localAddressList).1 rfl,
   (delete_clears_identity_or_returns_error healthyRemote () localProfile localCriteria
      localAddressList).2.2.1 rfl,
   (delete_clears_identity_or_returns_error healthyRemote () localProfile localCriteria
      localAddressList).2.2.2.2.1 rfl,
   (delete_clears_identity_or_returns_error refusingRemote () localProfile localCriteria
      localAddressList).2.1 "delete failed" rfl,
   (delete_clears_identity_or_returns_error refusingRemote () localProfile localCriteria
      localAddressList).2.2.2.1 "delete failed" rfl,
   (delete_clears_identity_or_returns_error refusingRemote () localProfile localCriteria
      localAddressList).2.2.2.2.2 "delete failed" rfl,
   by decide, by decide, by decide⟩

/-- C10 as stated fails for the persistence profile: Read of a profile that was just imported, its
`rule` and `app_service` unset, returns no error and leaves both unset, though the response carries
a rule and an application service. -/
theorem persistenceProfileRead_after_import :
    importedProfile.rule = none ∧ importedProfile.app_service = none ∧
    remoteProfile.Rule = "/Common/irule_custom_persistence_universal" ∧
    remoteProfile.AppService = "/Common/app1" ∧
    (resourceBigipLtmPersistenceProfileUniversalRead healthyRemote importedProfile ()).outcome
      = Outcome.returned [] ∧
    (resourceBigipLtmPersistenceProfileUniversalRead healthyRemote importedProfile ()).d.rule
      = none ∧
    (resourceBigipLtmPersistenceProfileUniversalRead healthyRemote importedProfile ()).d.app_service
      = none ∧
    (resourceBigipLtmPersistenceProfileUniversalRead healthyRemote importedProfile ()).d.defaults_from
      = some "/Common/universal" := by
  decide

/-- C10, amended: whenever the remote get succeeds with an object, Read returns no error and,
whatever the prior local state, Read of a traffic matching criteria sets `name` to the identity and
every other field to the value of the response; Read of a persistence profile sets `name` to the
identity and `defaults_from`, the three `match_across` fields, `method`, `mirror` and
`override_conn_limit` to the values of the response, `timeout` to the parsed timeout when the text
parses, and `app_service` and `rule` to the values of the response when they are locally set and
not empty, leaving them as they were otherwise; Read of an address list sets `name` to the identity
and `description` to the value of the response. Each Read is stated on its own get alone. -/
theorem read_refreshes_fields {σ : Type} (client : BigIP σ) (w : σ)
    (dp : PersistenceProfileData) (dt : TmcData) (da : AddressListData) :
    (∀ tmc : TrafficMatchingCriteria,
      (client.GetTrafficMatchingCriteria dt.id w).1 = (some tmc, none) →
      (resourceBigipLtmTrafficMatchingCriteriaRead client dt w).outcome = Outcome.returned [] ∧
      (resourceBigipLtmTrafficMatchingCriteriaRead client dt w).d =
        { id := dt.id
          name := some dt.id
          description := some tmc.Description
          protocol := some tmc.Protocol
          route_domain := some tmc.RouteDomain
          destination_address_list := some tmc.DestinationAddressList
          destination_address_inline := some tmc.DestinationAddressInline
          destination_port_list := some tmc.DestinationPortList
          destination_port_inline := some tmc.DestinationPortInline
          source_address_list := some tmc.SourceAddressList
          source_address_inline := some tmc.SourceAddressInline
          source_port_inline := some tmc.SourcePortInline }) ∧
    (∀ pp : UniversalPersistenceProfile,
      (client.GetUniversalPersistenceProfile dp.id w).1 = (some pp, none) →
      (resourceBigipLtmPersistenceProfileUniversalRead client dp w).outcome = Outcome.returned [] ∧
      (resourceBigipLtmPersistenceProfileUniversalRead client dp w).d =
        { id := dp.id
          name := some dp.id
          app_service := if getOkString dp.app_service then some pp.AppService else dp.app_service
          defaults_from := some pp.DefaultsFrom
          match_across_pools := some pp.MatchAcrossPools
          match_across_services := some pp.MatchAcrossServices
          match_across_virtuals := some pp.MatchAcrossVirtuals
          method := some pp.Method
          mirror := some pp.Mirror
          timeout :=
            match strconv.Atoi pp.Timeout with
            | some timeout => some timeout
            | none => dp.timeout
          override_conn_limit := some pp.OverrideConnectionLimit
          rule := if getOkString dp.rule then some pp.Rule else dp.rule }) ∧
    (∀ al : AddressList,
      (client.GetAddressList da.id w).1 = (some al, none) →
      (resourceBigipNetAddressListRead client da w).outcome = Outcome.returned [] ∧
      (resourceBigipNetAddressListRead client da w).d.id = da.id ∧
      (resourceBigipNetAddressListRead client da w).d.name = some da.id ∧
      (resourceBigipNetAddressListRead client da w).d.description = some al.Description) := by
  refine ⟨?_, ?_, ?_⟩
  · intro tmc ht
    simp [resourceBigipLtmTrafficMatchingCriteriaRead, ht]
  · intro pp hp
    simp only [resourceBigipLtmPersistenceProfileUniversalRead, hp]
    cases hto : strconv.Atoi pp.Timeout <;>
      by_cases ha : getOkString dp.app_service = true <;>
      by_cases hr : getOkString dp.rule = true <;>
      simp [ha, hr]
  · intro al ha
    simp [resourceBigipNetAddressListRead, ha]

/-- The amended C10 at a remote holding the three objects, and, for the persistence profile alone,
at the remote that keeps profiles in memory and holds no criteria and no address list: a profile
in the state file with a rule gets the rule of the response, a profile just imported keeps `rule`
and `app_service` unset. -/
theorem read_refreshes_fields_witness :
    ((resourceBigipLtmTrafficMatchingCriteriaRead healthyRemote localCriteria ()).outcome
        = Outcome.returned [] ∧
      (resourceBigipLtmTrafficMatchingCriteriaRead healthyRemote localCriteria ()).d =
        { id := "/Common/tmc1"
          name := some "/Common/tmc1"
          description := some "web traffic"
          protocol := some "tcp"
          route_domain := some "/Common/0"
          destination_address_list := some ""
          destination_address_inline := some "10.1.1.1"
          destination_port_list := some ""
          destination_port_inline := some "443"
          source_address_list := some ""
          source_address_inline := some "0.0.0.0"
          source_port_inline := some 0 }) ∧
    ((resourceBigipLtmPersistenceProfileUniversalRead healthyRemote localProfile ()).outcome
        = Outcome.returned [] ∧
      (resourceBigipLtmPersistenceProfileUniversalRead healthyRemote localProfile ()).d =
        { id := "/Common/pp1"
          name := some "/Common/pp1"
          app_service := none
          defaults_from := some "/Common/universal"
          match_across_pools := some "disabled"
          match_across_services := some "disabled"
          match_across_virtuals := some "enabled"
          method := some "insert"
          mirror := some "disabled"
          timeout := some 180
          override_conn_limit := some "disabled"
          rule := some "/Common/irule_custom_persistence_universal" }) ∧
    ((resourceBigipNetAddressListRead healthyRemote localAddressList ()).outcome
        = Outcome.returned [] ∧
      (resourceBigipNetAddressListRead healthyRemote localAddressList ()).d.id = "/Common/al1" ∧
      (resourceBigipNetAddressListRead healthyRemote localAddressList ()).d.name
        = some "/Common/al1" ∧
      (resourceBigipNetAddressListRead healthyRemote localAddressList ()).d.description
        = some "servers") ∧
    ((resourceBigipLtmPersistenceProfileUniversalRead memoryRemote importedProfile
        [("/Common/pp1", remoteProfile)]).outcome = Outcome.returned [] ∧
      (resourceBigipLtmPersistenceProfileUniversalRead memoryRemote importedProfile
        [("/Common/pp1", remoteProfile)]).d =
        { id := "/Common/pp1"
          name := some "/Common/pp1"
          app_service := none
          defaults_from := some "/Common/universal"
          match_across_pools := some "disabled"
          match_across_services := some "disabled"
          match_across_virtuals := some "enabled"
          method := some "insert"
          mirror := some "disabled"
          timeout := some 180
          override_conn_limit := some "disabled"
          rule := none }) :=
  ⟨(read_refreshes_fields healthyRemote () localProfile localCriteria localAddressList).1
      remoteCriteria rfl,
   (read_refreshes_fields healthyRemote () localProfile localCriteria localAddressList).2.1
      remoteProfile rfl,
   (read_refreshes_fields healthyRemote () localProfile localCriteria localAddressList).2.2
      remoteAddressList rfl,
   (read_refreshes_fields memoryRemote [("/Common/pp1", remoteProfile)] importedProfile
      localCriteria localAddressList).2.1 remoteProfile rfl⟩

/-- C11: for every persistence profile configuration with name `n`, parent `p` and rule `r`, on a
remote whose create and whose modify succeed and whose get then answers the object that the modify
submitted, Create returns no error and leaves the identity `n`, `name = n`, `defaults_from = p` and
`rule = r`. The submitted object is the request built from the configuration once the identity is
`n`; the statement needs none of `n`, `p`, `r` to be non-empty. -/
theorem persistenceProfileCreate_keeps_config {σ : Type} (client : BigIP σ) (w : σ)
    (d : PersistenceProfileData) (n p r : String)
    (hname : d.name = some n) (hparent : d.defaults_from = some p) (hrule : d.rule = some r)
    (hcreate : (client.CreateUniversalPersistenceProfile n p w).1 = none)
    (hmodify : (client.ModifyUniversalPersistenceProfile n
      (universalPersistenceProfileRequest { d with id := n })
      (client.CreateUniversalPersistenceProfile n p w).2).1 = none)
    (hget : (client.GetUniversalPersistenceProfile n
      (client.ModifyUniversalPersistenceProfile n
        (universalPersistenceProfileRequest { d with id := n })
        (client.CreateUniversalPersistenceProfile n p w).2).2).1
        = (some (universalPersistenceProfileRequest { d with id := n }), none)) :
    (resourceBigipLtmPersistenceProfileUniversalCreate client d w).outcome = Outcome.returned [] ∧
    (resourceBigipLtmPersistenceProfileUniversalCreate client d w).d.id = n ∧
    (resourceBigipLtmPersistenceProfileUniversalCreate client d w).d.name = some n ∧
    (resourceBigipLtmPersistenceProfileUniversalCreate client d w).d.defaults_from = some p ∧
    (resourceBigipLtmPersistenceProfileUniversalCreate client d w).d.rule = some r := by
  have hC : resourceBigipLtmPersistenceProfileUniversalCreate client d w
      = resourceBigipLtmPersistenceProfileUniversalUpdate client { d with id := n }
          (client.CreateUniversalPersistenceProfile n p w).2 := by
    simp [resourceBigipLtmPersistenceProfileUniversalCreate, hname, hparent, getString, hcreate]
  have hU : resourceBigipLtmPersistenceProfileUniversalUpdate client { d with id := n }
        (client.CreateUniversalPersistenceProfile n p w).2
      = resourceBigipLtmPersistenceProfileUniversalRead client { d with id := n }
          (client.ModifyUniversalPersistenceProfile n
            (universalPersistenceProfileRequest { d with id := n })
            (client.CreateUniversalPersistenceProfile n p w).2).2 := by
    simp only [resourceBigipLtmPersistenceProfileUniversalUpdate, hmodify]
  rw [hC, hU]
  simp only [resourceBigipLtmPersistenceProfileUniversalRead, hget]
  cases hto : strconv.Atoi (universalPersistenceProfileRequest { d with id := n }).Timeout <;>
    by_cases ha : getOkString d.app_service = true <;>
    by_cases hr : getOkString d.rule = true <;>
    simp [ha, hr, hrule, hparent, universalPersistenceProfileRequest, getString]

/-- C11 at the configuration of the acceptance test, on the remote that keeps profiles in memory
and is empty at the start. -/
theorem persistenceProfileCreate_keeps_config_witness :
    (resourceBigipLtmPersistenceProfileUniversalCreate memoryRemote testPpUniversalConfig []).outcome
      = Outcome.returned [] ∧
    (resourceBigipLtmPersistenceProfileUniversalCreate memoryRemote testPpUniversalConfig []).d.id
      = "/Common/test-ppuniversal" ∧
    (resourceBigipLtmPersistenceProfileUniversalCreate memoryRemote testPpUniversalConfig []).d.name
      = some "/Common/test-ppuniversal" ∧
    (resourceBigipLtmPersistenceProfileUniversalCreate memoryRemote testPpUniversalConfig
      []).d.defaults_from = some "/Common/universal" ∧
    (resourceBigipLtmPersistenceProfileUniversalCreate memoryRemote testPpUniversalConfig []).d.rule
      = some "/Common/irule_custom_persistence_universal" :=
  persistenceProfileCreate_keeps_config memoryRemote [] testPpUniversalConfig
    "/Common/test-ppuniversal" "/Common/universal" "/Common/irule_custom_persistence_universal"
    rfl rfl rfl rfl (by decide) (by decide)

/-- C12: for every local timeout `t` of the range of a 64-bit `int` (the value `d.Get("timeout")`
gives, zero when unset), the `Timeout` text that the persistence profile Update sends is
`strconv.Itoa t`; `strconv.Atoi` parses that text without error to exactly `t`; a Read that
receives a response with that text sets the local `timeout` to `t`, whatever the local state was;
and writing the parsed value again gives the same text. -/
theorem timeout_text_round_trip (d : PersistenceProfileData)
    (hlo : -(2 ^ 63 : Int) ≤ getInt d.timeout) (hhi : getInt d.timeout < 2 ^ 63) :
    (universalPersistenceProfileRequest d).Timeout = strconv.Itoa (getInt d.timeout) ∧
    strconv.Atoi (universalPersistenceProfileRequest d).Timeout = some (getInt d.timeout) ∧
    (∀ (σ : Type) (client : BigIP σ) (w : σ) (d0 : PersistenceProfileData)
        (pp : UniversalPersistenceProfile),
      (client.GetUniversalPersistenceProfile d0.id w).1 = (some pp, none) →
      pp.Timeout = (universalPersistenceProfileRequest d).Timeout →
      (resourceBigipLtmPersistenceProfileUniversalRead client d0 w).outcome = Outcome.returned [] ∧
      (resourceBigipLtmPersistenceProfileUniversalRead client d0 w).d.timeout
        = some (getInt d.timeout)) ∧
    (strconv.Atoi (universalPersistenceProfileRequest d).Timeout).map strconv.Itoa
      = some (universalPersistenceProfileRequest d).Timeout := by
  have hparse : strconv.Atoi (universalPersistenceProfileRequest d).Timeout
      = some (getInt d.timeout) := strconv_Atoi_Itoa (getInt d.timeout) hlo hhi
  refine ⟨rfl, hparse, ?_, ?_⟩
  · intro σ client w d0 pp hget htext
    rw [← htext] at hparse
    simp only [resourceBigipLtmPersistenceProfileUniversalRead, hget, hparse]
    by_cases ha : getOkString d0.app_service = true <;>
      by_cases hr : getOkString d0.rule = true <;>
      simp [ha, hr]
  · rw [hparse]
    rfl

/-- C12 at the local timeout 300, read back by a profile that was just imported, and at the two
ends of the range of `int`. -/
theorem timeout_text_round_trip_witness :
    (strconv.Itoa 300 = "300" ∧ strconv.Atoi "300" = some 300) ∧
    (resourceBigipLtmPersistenceProfileUniversalRead
      (fixedRemote (some (universalPersistenceProfileRequest localProfile), none) (none, none)
        (none, none) none none) importedProfile ()).d.timeout = some 300 ∧
    strconv.Atoi (strconv.Itoa (-9223372036854775808)) = some (-9223372036854775808) ∧
    strconv.Atoi (strconv.Itoa 9223372036854775807) = some 9223372036854775807 :=
  ⟨by decide,
   ((timeout_text_round_trip localProfile (by decide) (by decide)).2.2.1 Unit
      (fixedRemote (some (universalPersistenceProfileRequest localProfile), none) (none, none)
        (none, none) none none) () importedProfile
      (universalPersistenceProfileRequest localProfile) rfl rfl).2,
   (timeout_text_round_trip { importedProfile with timeout := some (-9223372036854775808) }
      (by decide) (by decide)).2.1,
   (timeout_text_round_trip { importedProfile with timeout := some 9223372036854775807 }
      (by decide) (by decide)).2.1⟩


end Bigip
